import Mathlib

/-!
Verification of the JACI budget application (two React/Firestore variants).

Shallow embedding conventions:
* JavaScript numbers are modelled by `JsNum` (NaN, the two infinities, or a
  finite value as a rational); exact arithmetic on finite values uses `ℚ`.
* Timestamps are milliseconds since the epoch as `Int`.  A Firestore document
  `date` field is `Option Int`: `none` models a missing field or a value with
  no `toDate` conversion (e.g. a pending server timestamp).
* Local-time day normalisation (`setHours`) is modelled with a fixed UTC
  offset `off`: local midnight of instant `t` is `t - (t - off) % 86400000`.
* Remote collaborators (Firestore, the forecast provider, JSON.parse) are
  modelled as explicit arguments/results: a handler that returns
  `Except ValidationError r` issues the remote insert exactly when it
  returns `Except.ok r`.
-/

/-- A JavaScript number: NaN, +Infinity, -Infinity, or a finite value. -/
inductive JsNum where
  | nan
  | posInf
  | negInf
  | fin (q : ℚ)
deriving DecidableEq

/-- The check `isNaN(x)` for an already-numeric `x`. -/
def jsIsNaN : JsNum → Bool
  | .nan => true
  | _ => false

/-- The JavaScript comparison `x <= 0` (false on NaN and +Infinity). -/
def jsLeZero : JsNum → Bool
  | .nan => false
  | .posInf => false
  | .negInf => true
  | .fin q => decide (q ≤ 0)

/-- A transaction document of variant 1 (`src/src/App.js`), as it comes back
from the store: `type` and `status` are raw strings, `amount` may be absent
(the code coalesces it with `t.amount || 0`), `date` may be absent or not yet
convertible. -/
structure Txn where
  amount : Option ℚ
  category : String
  type : String
  status : String
  date : Option Int
deriving DecidableEq

/-- The coalesced amount `(t.amount || 0)`. -/
def amt (t : Txn) : ℚ := t.amount.getD 0

/-- Milliseconds per day, `24 * 60 * 60 * 1000`. -/
def msPerDay : Int := 86400000

/-- Source `totalIncome`: `transactions.filter(t => t.type === 'income' && t.status
=== 'actual').reduce((acc, t) => acc + (t.amount || 0), 0)`. -/
def totalIncome (ts : List Txn) : ℚ :=
  (ts.filter fun t => t.type == "income" && t.status == "actual").foldl
    (fun acc t => acc + amt t) 0

/-- Source `totalExpenses`: same with `t.type === 'expense'`. -/
def totalExpenses (ts : List Txn) : ℚ :=
  (ts.filter fun t => t.type == "expense" && t.status == "actual").foldl
    (fun acc t => acc + amt t) 0

/-- Source `balance = totalIncome - totalExpenses`. -/
def balance (ts : List Txn) : ℚ := totalIncome ts - totalExpenses ts

/-- Result record of both cash-flow functions:
`{ income, expenses, net }`. -/
structure CashFlow where
  income : ℚ
  expenses : ℚ
  net : ℚ
deriving DecidableEq

/-- The guard of `getActualCashFlowForLast30Days`:
`t.status === 'actual' && t.date && t.date.toDate && t.date.toDate() >=
thirtyDaysAgo.toDate()` where `thirtyDaysAgo = now - 30 days`. -/
def inLast30 (now : Int) (t : Txn) : Bool :=
  t.status == "actual" &&
    match t.date with
    | some d => decide (now - 30 * msPerDay ≤ d)
    | none => false

/-- One iteration of the `forEach` accumulation in
`getActualCashFlowForLast30Days` (pair = income so far, expenses so far). -/
def actualStep (now : Int) (acc : ℚ × ℚ) (t : Txn) : ℚ × ℚ :=
  if inLast30 now t then
    if t.type == "income" then (acc.1 + amt t, acc.2)
    else if t.type == "expense" then (acc.1, acc.2 + amt t)
    else acc
  else acc

/-- Source `getActualCashFlowForLast30Days` of variant 1, with the calculation
instant `now` (`Date.now()`) made explicit. -/
def getActualCashFlowForLast30Days (now : Int) (ts : List Txn) : CashFlow :=
  let r := ts.foldl (actualStep now) (0, 0)
  { income := r.1, expenses := r.2, net := r.1 - r.2 }

/-- Local midnight of instant `t` for a timezone of fixed offset `off`
(models `date.setHours(0, 0, 0, 0)`). -/
def startOfDayAt (off t : Int) : Int := t - (t - off) % msPerDay

/-- The guard of `getForecastCashFlowForNext30Days`: `t.status ===
'forecasted' && t.date && t.date.toDate` and then `forecastDate >= today &&
forecastDate <= thirtyDaysFromNow`, where `today` is local midnight of `now`
and `thirtyDaysFromNow` is 23:59:59.999 of the local day containing
`now + 30 days`. -/
def inNext30 (off now : Int) (t : Txn) : Bool :=
  t.status == "forecasted" &&
    match t.date with
    | some d =>
        decide (startOfDayAt off now ≤ d) &&
        decide (d ≤ startOfDayAt off (now + 30 * msPerDay) + (msPerDay - 1))
    | none => false

/-- One iteration of the `forEach` accumulation in
`getForecastCashFlowForNext30Days`. -/
def forecastStep (off now : Int) (acc : ℚ × ℚ) (t : Txn) : ℚ × ℚ :=
  if inNext30 off now t then
    if t.type == "income" then (acc.1 + amt t, acc.2)
    else if t.type == "expense" then (acc.1, acc.2 + amt t)
    else acc
  else acc

/-- Source `getForecastCashFlowForNext30Days` of variant 1, with the calculation
instant `now` and the timezone offset `off` made explicit. -/
def getForecastCashFlowForNext30Days (off now : Int) (ts : List Txn) :
    CashFlow :=
  let r := ts.foldl (forecastStep off now) (0, 0)
  { income := r.1, expenses := r.2, net := r.1 - r.2 }

/-- Sum of coalesced amounts over the entries satisfying `p` (used to state
what the fold computes, in the words of the specification). -/
def sumAmtOver (p : Txn → Bool) (ts : List Txn) : ℚ :=
  ((ts.filter p).map amt).sum

/-! Variant 1 create handler (`handleAddTransaction`). -/

/-- JavaScript `String.prototype.trim()`: drop leading and trailing
whitespace (executable model, so that concrete inputs evaluate). -/
def jsTrim (s : String) : String :=
  ⟨((s.data.dropWhile Char.isWhitespace).reverse.dropWhile
      Char.isWhitespace).reverse⟩

/-- The local failures of the create handlers (each is surfaced by a modal or
message; none issues a remote write). -/
inductive ValidationError where
  | notLoggedIn
  | invalidAmount
  | emptyCategory
  | missingForecastDate
deriving DecidableEq

/-- The `date` field the handler writes: a server timestamp for actual
entries, or `Timestamp.fromDate(new Date(day + 'T12:00:00'))` for forecasted
entries with a chosen day. -/
inductive EffDate where
  | serverTs
  | middayOf (day : String)
deriving DecidableEq

/-- The form state read by `handleAddTransaction`.  The raw `amount` string
is represented by its three observations used in the code: emptiness
(`!amount`, the empty string being the only falsy string), its `Number`
coercion (used by `isNaN(amount)`), and its `parseFloat` value (compared to 0
and stored).  `transactionDate` is `none` when the date input is empty. -/
structure AddTxnInput where
  amountEmpty : Bool
  amountNumberVal : JsNum
  amountParsed : JsNum
  category : String
  type : String
  transactionStatus : String
  transactionDate : Option String
deriving DecidableEq

/-- The document `handleAddTransaction` passes to `addDoc` (the `createdAt`
server timestamp carries no information and is omitted). -/
structure TxnRecord where
  amount : JsNum
  category : String
  type : String
  status : String
  date : EffDate
deriving DecidableEq

/-- Source `handleAddTransaction` of variant 1: the sequence of early-return guards
followed by the construction of `transactionData`.  Returns `Except.ok`
exactly when the remote insert is issued. -/
def handleAddTransaction (loggedIn : Bool) (inp : AddTxnInput) :
    Except ValidationError TxnRecord :=
  if !loggedIn then
    .error .notLoggedIn
  else if inp.amountEmpty || jsIsNaN inp.amountNumberVal ||
      jsLeZero inp.amountParsed then
    .error .invalidAmount
  else if jsTrim inp.category == "" then
    .error .emptyCategory
  else if inp.transactionStatus == "forecasted" && inp.transactionDate.isNone
      then
    .error .missingForecastDate
  else
    .ok
      { amount := inp.amountParsed
        category := jsTrim inp.category
        type := inp.type
        status := inp.transactionStatus
        date :=
          match inp.transactionStatus == "forecasted", inp.transactionDate
            with
          | true, some day => .middayOf day
          | _, _ => .serverTs }

/-! Variant 2 create handler (`handleAddItem`) and the summary update. -/

/-- The form data read by `handleAddItem`: `amount` is
`parseFloat(formData.get('amount'))`; `date` is kept as the raw form string
(the `new Date(...)` object built from it is always truthy, so the `!date`
disjunct of the guard never fires and is dropped here). -/
structure AddItemInput where
  amountNum : JsNum
  type : String
  description : String
  dateStr : String
deriving DecidableEq

/-- The document `handleAddItem` passes to `addDoc`. -/
structure ItemRecord where
  dateStr : String
  amount : JsNum
  type : String
  description : String
deriving DecidableEq

/-- The per-user summary document `{ budget, income, expense }`. -/
structure Summary where
  budget : ℚ
  income : ℚ
  expense : ℚ
deriving DecidableEq

/-- The guard of `handleAddItem`:
`isNaN(amount) || amount <= 0 || !description || !date`; `!description` is
literal emptiness (no trimming in this variant), `!date` is always false. -/
def handleAddItem (it : AddItemInput) : Except ValidationError ItemRecord :=
  if jsIsNaN it.amountNum || jsLeZero it.amountNum || it.description == ""
      then
    .error .invalidAmount
  else
    .ok
      { dateStr := it.dateStr
        amount := it.amountNum
        type := it.type
        description := it.description }

/-- The summary document written (with merge) after a successful create:
`budget: type === 'income' ? budget + amount : budget - amount`,
`income: type === 'income' ? income + amount : income`,
`expense: type === 'expense' ? expense + amount : expense`. -/
def summaryWrite (s : Summary) (type : String) (amount : ℚ) : Summary :=
  { budget := if type == "income" then s.budget + amount
              else s.budget - amount
    income := if type == "income" then s.income + amount else s.income
    expense := if type == "expense" then s.expense + amount else s.expense }

/-! Forecast client (`handleForecast`, variant 2). -/

/-- A forecast-provider response, reduced to the only part the handler reads:
the value at `candidates[0].content.parts[0].text` when every step of that
optional chain exists, otherwise `none`. -/
structure ForecastResponse where
  text : Option String
deriving DecidableEq

/-- Outcome of one `handleForecast` run: the forecast list afterwards,
whether the success message was shown, and whether the failure message was
shown. -/
structure ForecastOutcome (α : Type) where
  forecastItems : α
  succeeded : Bool
  failed : Bool

/-- Source `handleForecast` of variant 2, with `JSON.parse` passed in as the
function `parse` (`none` models a parse exception) and the current
`forecastItems` state as `prev`.  The code reads `text`, tests its
truthiness, and only then runs `JSON.parse(text)` inside the `try`; a throw
lands in the `catch`, which leaves `forecastItems` untouched. -/
def handleForecast {α : Type} (parse : String → Option α)
    (resp : ForecastResponse) (prev : α) : ForecastOutcome α :=
  match resp.text with
  | some t =>
      if t == "" then { forecastItems := prev, succeeded := false,
                        failed := true }
      else
        match parse t with
        | some v => { forecastItems := v, succeeded := true, failed := false }
        | none => { forecastItems := prev, succeeded := false, failed := true }
  | none => { forecastItems := prev, succeeded := false, failed := true }

/-! Automatic sign-in (both variants).  An execution is abstracted as the
list of identity deliveries of the auth-state stream: `true` for a present
user, `false` for a null identity.  The attempt itself (token or anonymous)
is what is counted; which of the two is chosen does not matter here. -/

/-- Variant 1 auth callback for a null identity: attempt an automatic
sign-in only when the one-shot ref `isInitialAuthAttempt` is still set, and
clear it in the `finally`.  Returns the new flag and whether an attempt was
made. -/
def v1NullStep (flag : Bool) : Bool × Bool :=
  if flag then (false, true) else (flag, false)

/-- Number of automatic sign-in attempts variant 1 makes over a stream of
identity deliveries, starting from flag state `flag`. -/
def v1AttemptCount (flag : Bool) : List Bool → Nat
  | [] => 0
  | e :: es =>
      if e then v1AttemptCount flag es
      else
        let r := v1NullStep flag
        (if r.2 then 1 else 0) + v1AttemptCount r.1 es

/-- Number of automatic sign-in attempts variant 2 makes over a stream of
identity deliveries: its callback attempts a sign-in on every null identity,
with no guard. -/
def v2AttemptCount : List Bool → Nat
  | [] => 0
  | e :: es => (if e then 0 else 1) + v2AttemptCount es

/-! Helper lemmas. -/

lemma foldl_add_amt (l : List Txn) :
    ∀ c : ℚ, l.foldl (fun acc t => acc + amt t) c = c + (l.map amt).sum := by
  induction l with
  | nil => intro c; simp
  | cons t l ih => intro c; rw [List.foldl_cons, ih]; ring_nf; simp; ring

lemma totalIncome_eq_sum (ts : List Txn) :
    totalIncome ts =
      sumAmtOver (fun t => t.type == "income" && t.status == "actual") ts := by
  unfold totalIncome sumAmtOver
  rw [foldl_add_amt]
  simp

lemma totalExpenses_eq_sum (ts : List Txn) :
    totalExpenses ts =
      sumAmtOver (fun t => t.type == "expense" && t.status == "actual") ts := by
  unfold totalExpenses sumAmtOver
  rw [foldl_add_amt]
  simp

lemma step_foldl (step : ℚ × ℚ → Txn → ℚ × ℚ) (win : Int → Txn → Bool)
    (now : Int)
    (hstep : ∀ acc t, step acc t =
      if win now t then
        if t.type == "income" then (acc.1 + amt t, acc.2)
        else if t.type == "expense" then (acc.1, acc.2 + amt t)
        else acc
      else acc)
    (ts : List Txn) :
    ∀ ab : ℚ × ℚ,
      ts.foldl step ab =
        (ab.1 + sumAmtOver (fun t => win now t && t.type == "income") ts,
         ab.2 + sumAmtOver (fun t => win now t && t.type == "expense") ts) := by
  induction ts with
  | nil => intro ab; simp [sumAmtOver]
  | cons t ts ih =>
      intro ab
      rw [List.foldl_cons, ih, hstep]
      by_cases h1 : win now t = true
      · by_cases h2 : (t.type == "income") = true
        · have h3 : (t.type == "expense") = false := by
            have ht : t.type = "income" := (beq_iff_eq ..).mp h2
            rw [ht]; decide
          simp [sumAmtOver, List.filter_cons, h1, h2, h3]
          ring
        · by_cases h3 : (t.type == "expense") = true
          · simp [sumAmtOver, List.filter_cons, h1, h2, h3]
            ring
          · simp [sumAmtOver, List.filter_cons, h1, h2, h3,
              Bool.eq_false_iff.mpr h2, Bool.eq_false_iff.mpr h3]
      · simp [sumAmtOver, List.filter_cons, h1, Bool.eq_false_iff.mpr h1]

lemma actual_foldl (now : Int) (ts : List Txn) :
    ∀ ab : ℚ × ℚ,
      ts.foldl (actualStep now) ab =
        (ab.1 + sumAmtOver (fun t => inLast30 now t && t.type == "income") ts,
         ab.2 + sumAmtOver (fun t => inLast30 now t && t.type == "expense")
                  ts) :=
  step_foldl (actualStep now) inLast30 now (fun _ _ => rfl) ts

lemma forecast_foldl (off now : Int) (ts : List Txn) :
    ∀ ab : ℚ × ℚ,
      ts.foldl (forecastStep off now) ab =
        (ab.1 + sumAmtOver (fun t => inNext30 off now t && t.type == "income")
                  ts,
         ab.2 + sumAmtOver (fun t => inNext30 off now t && t.type == "expense")
                  ts) :=
  step_foldl (forecastStep off now) (fun n t => inNext30 off n t) now
    (fun _ _ => rfl) ts

lemma inLast30_pred_eq (now : Int) (ty : String) (t : Txn) :
    (inLast30 now t && (t.type == ty)) =
      (t.status == "actual" && (t.type == ty) &&
        t.date.any fun d => decide (now - 30 * msPerDay ≤ d)) := by
  unfold inLast30
  cases t.date with
  | none => simp [Option.any]
  | some d =>
      simp only [Option.any]
      cases t.status == "actual" <;> cases t.type == ty <;>
        cases decide (now - 30 * msPerDay ≤ d) <;> rfl

lemma inNext30_pred_eq (off now : Int) (ty : String) (t : Txn) :
    (inNext30 off now t && (t.type == ty)) =
      (t.status == "forecasted" && (t.type == ty) &&
        t.date.any fun d =>
          decide (startOfDayAt off now ≤ d) &&
          decide (d ≤ startOfDayAt off (now + 30 * msPerDay) +
            (msPerDay - 1))) := by
  unfold inNext30
  cases t.date with
  | none => simp [Option.any]
  | some d =>
      simp only [Option.any]
      cases t.status == "forecasted" <;> cases t.type == ty <;>
        cases decide (startOfDayAt off now ≤ d) <;>
        cases decide (d ≤ startOfDayAt off (now + 30 * msPerDay) +
          (msPerDay - 1)) <;> rfl

lemma startOfDayAt_le (off t : Int) : startOfDayAt off t ≤ t := by
  unfold startOfDayAt msPerDay
  have h := Int.emod_nonneg (t - off) (by norm_num : (86400000 : Int) ≠ 0)
  omega

lemma lt_startOfDayAt_add (off t : Int) :
    t < startOfDayAt off t + msPerDay := by
  unfold startOfDayAt msPerDay
  have h := Int.emod_lt_of_pos (t - off)
    (by norm_num : (0 : Int) < 86400000)
  unfold msPerDay at h
  omega

/-! Claim theorems. -/

/-- C8: for every transaction list L, `totalIncome(L) - totalExpenses(L)`
equals `balance(L)`. -/
theorem c8_balance_identity (ts : List Txn) :
    totalIncome ts - totalExpenses ts = balance ts := rfl

/-- C9: for the empty transaction list, `totalIncome`, `totalExpenses`,
`balance`, and the income/expenses/net of both 30-day cash-flow results are
all exactly zero; the computations are total Lean functions, so no error is
raised. -/
theorem c9_empty_list_zero (off now : Int) :
    totalIncome [] = 0 ∧ totalExpenses [] = 0 ∧ balance [] = 0 ∧
    getActualCashFlowForLast30Days now [] =
      { income := 0, expenses := 0, net := 0 } ∧
    getForecastCashFlowForNext30Days off now [] =
      { income := 0, expenses := 0, net := 0 } := by
  refine ⟨rfl, rfl, ?_, ?_, ?_⟩
  · show (0 : ℚ) - 0 = 0
    norm_num
  · simp [getActualCashFlowForLast30Days]
  · simp [getForecastCashFlowForNext30Days]

/-- C2: the trailing-30-day actual cash flow sums amounts exactly over the
entries with `status = actual` whose date exists and is at least the
calculation instant minus 30 days, separately for income and expenses, with
`net = income - expenses`; and an `actual` income entry dated 31 days before
the instant is excluded from those figures but still adds its amount to
`totalIncome`. -/
theorem c2_actual_window (now : Int) (ts : List Txn) (t : Txn) :
    ((getActualCashFlowForLast30Days now ts).income =
        sumAmtOver (fun u => u.status == "actual" && (u.type == "income") &&
          u.date.any fun d => decide (now - 30 * msPerDay ≤ d)) ts ∧
      (getActualCashFlowForLast30Days now ts).expenses =
        sumAmtOver (fun u => u.status == "actual" && (u.type == "expense") &&
          u.date.any fun d => decide (now - 30 * msPerDay ≤ d)) ts ∧
      (getActualCashFlowForLast30Days now ts).net =
        (getActualCashFlowForLast30Days now ts).income -
          (getActualCashFlowForLast30Days now ts).expenses) ∧
    (t.status = "actual" → t.type = "income" →
      t.date = some (now - 31 * msPerDay) →
      getActualCashFlowForLast30Days now (t :: ts) =
        getActualCashFlowForLast30Days now ts ∧
      totalIncome (t :: ts) = amt t + totalIncome ts) := by
  have hchar : ∀ l : List Txn,
      (getActualCashFlowForLast30Days now l).income =
          sumAmtOver (fun u => u.status == "actual" && (u.type == "income") &&
            u.date.any fun d => decide (now - 30 * msPerDay ≤ d)) l ∧
        (getActualCashFlowForLast30Days now l).expenses =
          sumAmtOver (fun u => u.status == "actual" && (u.type == "expense") &&
            u.date.any fun d => decide (now - 30 * msPerDay ≤ d)) l := by
    intro l
    unfold getActualCashFlowForLast30Days
    rw [actual_foldl now l (0, 0)]
    rw [funext (inLast30_pred_eq now "income"),
      funext (inLast30_pred_eq now "expense")]
    constructor <;> simp
  refine ⟨⟨(hchar ts).1, (hchar ts).2, rfl⟩, ?_⟩
  intro h1 h2 h3
  have hstep : actualStep now (0, 0) t = (0, 0) := by
    have hfalse : ¬ (now - 30 * msPerDay ≤ now - 31 * msPerDay) := by
      unfold msPerDay; omega
    unfold actualStep inLast30
    rw [h3]
    simp [hfalse]
  constructor
  · unfold getActualCashFlowForLast30Days
    rw [List.foldl_cons, hstep]
  · rw [totalIncome_eq_sum, totalIncome_eq_sum]
    unfold sumAmtOver
    rw [List.filter_cons]
    simp [h1, h2]

/-- Witness for C2: one actual income entry dated exactly 31 days before the
instant `31 * msPerDay` (so dated `0`). -/
theorem c2_actual_window_witness :
    getActualCashFlowForLast30Days (31 * msPerDay)
        [{ amount := some 7, category := "salary", type := "income",
           status := "actual", date := some 0 }] =
      getActualCashFlowForLast30Days (31 * msPerDay) [] ∧
    totalIncome
        [{ amount := some 7, category := "salary", type := "income",
           status := "actual", date := some 0 }] =
      7 + totalIncome [] := by
  have h := (c2_actual_window (31 * msPerDay) []
    { amount := some 7, category := "salary", type := "income",
      status := "actual", date := some 0 }).2 rfl rfl (by decide)
  exact ⟨h.1, h.2⟩

/-- C3: the forward-30-day forecast cash flow sums amounts exactly over the
entries with `status = forecasted` whose date exists and lies in
[local midnight of the instant, 23:59:59.999 of the local day containing the
instant plus 30 days], both bounds inclusive; a forecasted income entry dated
10 days after the instant adds its amount, and a forecasted entry dated 40
days after the instant changes nothing. -/
theorem c3_forecast_window (off now : Int) (ts : List Txn) (t u : Txn) :
    ((getForecastCashFlowForNext30Days off now ts).income =
        sumAmtOver (fun v => v.status == "forecasted" &&
          (v.type == "income") &&
          v.date.any fun d =>
            decide (startOfDayAt off now ≤ d) &&
            decide (d ≤ startOfDayAt off (now + 30 * msPerDay) +
              (msPerDay - 1))) ts ∧
      (getForecastCashFlowForNext30Days off now ts).expenses =
        sumAmtOver (fun v => v.status == "forecasted" &&
          (v.type == "expense") &&
          v.date.any fun d =>
            decide (startOfDayAt off now ≤ d) &&
            decide (d ≤ startOfDayAt off (now + 30 * msPerDay) +
              (msPerDay - 1))) ts ∧
      (getForecastCashFlowForNext30Days off now ts).net =
        (getForecastCashFlowForNext30Days off now ts).income -
          (getForecastCashFlowForNext30Days off now ts).expenses) ∧
    (t.status = "forecasted" → t.type = "income" →
      t.date = some (now + 10 * msPerDay) →
      (getForecastCashFlowForNext30Days off now (t :: ts)).income =
        amt t + (getForecastCashFlowForNext30Days off now ts).income) ∧
    (u.status = "forecasted" → u.date = some (now + 40 * msPerDay) →
      getForecastCashFlowForNext30Days off now (u :: ts) =
        getForecastCashFlowForNext30Days off now ts) := by
  have h01 := startOfDayAt_le off now
  have h02 := lt_startOfDayAt_add off (now + 30 * msPerDay)
  have h03 := startOfDayAt_le off (now + 30 * msPerDay)
  refine ⟨?_, ?_, ?_⟩
  · unfold getForecastCashFlowForNext30Days
    rw [forecast_foldl off now ts (0, 0)]
    rw [funext (inNext30_pred_eq off now "income"),
      funext (inNext30_pred_eq off now "expense")]
    refine ⟨by simp, by simp, rfl⟩
  · intro h1 h2 h3
    have hin : inNext30 off now t = true := by
      have hA : startOfDayAt off now ≤ now + 10 * msPerDay := by
        unfold msPerDay at *; omega
      have hB : now + 10 * msPerDay ≤
          startOfDayAt off (now + 30 * msPerDay) + (msPerDay - 1) := by
        unfold msPerDay at *; omega
      unfold inNext30
      rw [h1, h3]
      simp [hA, hB]
    have hstep : forecastStep off now (0, 0) t = (amt t, 0) := by
      unfold forecastStep
      rw [hin, h2]
      simp
    unfold getForecastCashFlowForNext30Days
    rw [List.foldl_cons, hstep, forecast_foldl off now ts (amt t, 0),
      forecast_foldl off now ts (0, 0)]
    simp
  · intro h1 h3
    have hin : inNext30 off now u = false := by
      have hB : ¬ (now + 40 * msPerDay ≤
          startOfDayAt off (now + 30 * msPerDay) + (msPerDay - 1)) := by
        unfold msPerDay at *; omega
      unfold inNext30
      rw [h1, h3]
      simp [hB]
    have hstep : forecastStep off now (0, 0) u = (0, 0) := by
      unfold forecastStep
      rw [hin]
      simp
    unfold getForecastCashFlowForNext30Days
    rw [List.foldl_cons, hstep]

/-- Witness for C3: with offset 0 and instant 0, a forecasted income entry
dated 10 days ahead counts and a forecasted entry dated 40 days ahead does
not. -/
theorem c3_forecast_window_witness :
    (getForecastCashFlowForNext30Days 0 0
        [{ amount := some 4, category := "rent", type := "income",
           status := "forecasted", date := some (10 * msPerDay) }]).income =
      4 + (getForecastCashFlowForNext30Days 0 0 []).income ∧
    getForecastCashFlowForNext30Days 0 0
        [{ amount := some 4, category := "rent", type := "expense",
           status := "forecasted", date := some (40 * msPerDay) }] =
      getForecastCashFlowForNext30Days 0 0 [] := by
  constructor
  · exact (c3_forecast_window 0 0 []
      { amount := some 4, category := "rent", type := "income",
        status := "forecasted", date := some (10 * msPerDay) }
      { amount := some 4, category := "rent", type := "expense",
        status := "forecasted", date := some (40 * msPerDay) }).2.1
      rfl rfl (by decide)
  · exact (c3_forecast_window 0 0 []
      { amount := some 4, category := "rent", type := "income",
        status := "forecasted", date := some (10 * msPerDay) }
      { amount := some 4, category := "rent", type := "expense",
        status := "forecasted", date := some (40 * msPerDay) }).2.2
      rfl (by decide)

/-- C7: in variant 1, prepending a `forecasted` entry changes none of
`totalIncome`, `totalExpenses`, `balance` or the trailing-30-day actual cash
flow, and prepending an `actual` entry does not change the forward-30-day
forecast cash flow. -/
theorem c7_status_separation (off now : Int) (ts : List Txn) (t : Txn) :
    (t.status = "forecasted" →
      totalIncome (t :: ts) = totalIncome ts ∧
      totalExpenses (t :: ts) = totalExpenses ts ∧
      balance (t :: ts) = balance ts ∧
      getActualCashFlowForLast30Days now (t :: ts) =
        getActualCashFlowForLast30Days now ts) ∧
    (t.status = "actual" →
      getForecastCashFlowForNext30Days off now (t :: ts) =
        getForecastCashFlowForNext30Days off now ts) := by
  constructor
  · intro h
    have hs : (t.status == "actual") = false := by rw [h]; decide
    have hinc : totalIncome (t :: ts) = totalIncome ts := by
      unfold totalIncome
      rw [List.filter_cons]
      simp [hs]
    have hexp : totalExpenses (t :: ts) = totalExpenses ts := by
      unfold totalExpenses
      rw [List.filter_cons]
      simp [hs]
    refine ⟨hinc, hexp, ?_, ?_⟩
    · unfold balance
      rw [hinc, hexp]
    · have hstep : actualStep now (0, 0) t = (0, 0) := by
        unfold actualStep inLast30
        rw [hs]
        simp
      unfold getActualCashFlowForLast30Days
      rw [List.foldl_cons, hstep]
  · intro h
    have hs : (t.status == "forecasted") = false := by rw [h]; decide
    have hstep : forecastStep off now (0, 0) t = (0, 0) := by
      unfold forecastStep inNext30
      rw [hs]
      simp
    unfold getForecastCashFlowForNext30Days
    rw [List.foldl_cons, hstep]

/-- Witness for C7: a concrete forecasted entry leaves the actual metrics
unchanged, and a concrete actual entry leaves the forecast window
unchanged. -/
theorem c7_status_separation_witness :
    (totalIncome
        [{ amount := some 9, category := "gift", type := "income",
           status := "forecasted", date := some 0 }] =
      totalIncome [] ∧
    totalExpenses
        [{ amount := some 9, category := "gift", type := "income",
           status := "forecasted", date := some 0 }] =
      totalExpenses [] ∧
    balance
        [{ amount := some 9, category := "gift", type := "income",
           status := "forecasted", date := some 0 }] =
      balance [] ∧
    getActualCashFlowForLast30Days 0
        [{ amount := some 9, category := "gift", type := "income",
           status := "forecasted", date := some 0 }] =
      getActualCashFlowForLast30Days 0 []) ∧
    getForecastCashFlowForNext30Days 0 0
        [{ amount := some 9, category := "gift", type := "income",
           status := "actual", date := some 0 }] =
      getForecastCashFlowForNext30Days 0 0 [] := by
  constructor
  · exact (c7_status_separation 0 0 []
      { amount := some 9, category := "gift", type := "income",
        status := "forecasted", date := some 0 }).1 rfl
  · exact (c7_status_separation 0 0 []
      { amount := some 9, category := "gift", type := "income",
        status := "actual", date := some 0 }).2 rfl

/-- C10: an entry whose `date` is missing or not convertible (modelled as
`date = none`) is skipped by both windowed computations — prepending it
changes neither result, whatever its `status` and `type` — and the
computations remain total (no exception). -/
theorem c10_missing_date_skipped (off now : Int) (ts : List Txn) (t : Txn) :
    t.date = none →
      getActualCashFlowForLast30Days now (t :: ts) =
        getActualCashFlowForLast30Days now ts ∧
      getForecastCashFlowForNext30Days off now (t :: ts) =
        getForecastCashFlowForNext30Days off now ts := by
  intro h
  have hA : inLast30 now t = false := by
    unfold inLast30
    rw [h]
    simp
  have hF : inNext30 off now t = false := by
    unfold inNext30
    rw [h]
    simp
  constructor
  · have hstep : actualStep now (0, 0) t = (0, 0) := by
      unfold actualStep
      rw [hA]
      simp
    unfold getActualCashFlowForLast30Days
    rw [List.foldl_cons, hstep]
  · have hstep : forecastStep off now (0, 0) t = (0, 0) := by
      unfold forecastStep
      rw [hF]
      simp
    unfold getForecastCashFlowForNext30Days
    rw [List.foldl_cons, hstep]

/-- Witness for C10: an actual income entry with a pending/absent date is
ignored by both 30-day windows. -/
theorem c10_missing_date_skipped_witness :
    getActualCashFlowForLast30Days 0
        [{ amount := some 3, category := "pay", type := "income",
           status := "actual", date := none }] =
      getActualCashFlowForLast30Days 0 [] ∧
    getForecastCashFlowForNext30Days 0 0
        [{ amount := some 3, category := "pay", type := "income",
           status := "actual", date := none }] =
      getForecastCashFlowForNext30Days 0 0 [] :=
  c10_missing_date_skipped 0 0 []
    { amount := some 3, category := "pay", type := "income",
      status := "actual", date := none } rfl

/-- C1 counterexample: in variant 2 a description of a single space is empty
after trimming, yet `handleAddItem` accepts it and issues the insert
(`Except.ok`), so the claim as stated is false. -/
theorem c1_whitespace_description_submitted :
    jsTrim " " = "" ∧
    (handleAddItem { amountNum := JsNum.fin 5, type := "expense",
                     description := " ", dateStr := "2025-09-01" }).isOk =
      true := by
  constructor
  · rfl
  · rfl

/-- C1 amended: the create operations reach the store exactly when their
actual guards pass — variant 1 rejects an empty raw amount string, a
NaN `Number` coercion, a `parseFloat` value `<= 0`, a category empty after
trimming, and a forecasted entry without a date; variant 2 rejects a NaN or
`<= 0` parsed amount and a literally empty (untrimmed) description.  NaN and
+Infinity pass the `<= 0` comparison, and a whitespace-only variant 2
description passes the emptiness test.  On rejection no insert is issued;
otherwise the record is submitted. -/
lemma handleAddTransaction_isOk (inp : AddTxnInput) :
    (handleAddTransaction true inp).isOk =
      !(inp.amountEmpty || jsIsNaN inp.amountNumberVal ||
        jsLeZero inp.amountParsed || (jsTrim inp.category == "") ||
        (inp.transactionStatus == "forecasted" &&
          inp.transactionDate.isNone)) := by
  unfold handleAddTransaction
  cases hA : (inp.amountEmpty || jsIsNaN inp.amountNumberVal ||
      jsLeZero inp.amountParsed) <;>
  cases hB : (jsTrim inp.category == "") <;>
  cases hC : (inp.transactionStatus == "forecasted" &&
      inp.transactionDate.isNone) <;>
    simp_all [Except.isOk, Except.toBool]

lemma handleAddItem_isOk (it : AddItemInput) :
    (handleAddItem it).isOk =
      !(jsIsNaN it.amountNum || jsLeZero it.amountNum ||
        (it.description == "")) := by
  unfold handleAddItem
  cases hA : (jsIsNaN it.amountNum || jsLeZero it.amountNum ||
      (it.description == "")) <;>
    simp_all [Except.isOk, Except.toBool]

theorem c1_amended_validation (inp : AddTxnInput) (it : AddItemInput) :
    ((handleAddTransaction true inp).isOk = true ↔
        ¬(inp.amountEmpty = true ∨ jsIsNaN inp.amountNumberVal = true ∨
          jsLeZero inp.amountParsed = true ∨ jsTrim inp.category = "" ∨
          (inp.transactionStatus = "forecasted" ∧
            inp.transactionDate = none))) ∧
    ((handleAddItem it).isOk = true ↔
        ¬(jsIsNaN it.amountNum = true ∨ jsLeZero it.amountNum = true ∨
          it.description = "")) := by
  constructor
  · rw [handleAddTransaction_isOk]
    simp [not_or, Option.isNone_iff_eq_none, Option.isSome_iff_ne_none,
      not_and]
    tauto
  · rw [handleAddItem_isOk]
    simp [not_or]
    tauto

/-- C4: for every successful variant 2 item creation whose amount is the
finite number `a`, the summary record written with merge semantics adds `a`
to the budget for income and subtracts it for anything else, adds `a` to the
running income exactly when the type is income, and adds `a` to the running
expense exactly when the type is expense. -/
theorem c4_summary_after_create (it : AddItemInput) (rec : ItemRecord)
    (s : Summary) (a : ℚ)
    (_hok : handleAddItem it = Except.ok rec)
    (_ha : rec.amount = JsNum.fin a) :
    (summaryWrite s rec.type a).budget =
      (if rec.type = "income" then s.budget + a else s.budget - a) ∧
    (summaryWrite s rec.type a).income =
      (if rec.type = "income" then s.income + a else s.income) ∧
    (summaryWrite s rec.type a).expense =
      (if rec.type = "expense" then s.expense + a else s.expense) := by
  unfold summaryWrite
  refine ⟨?_, ?_, ?_⟩ <;> simp [beq_iff_eq]

/-- Witness for C4: creating an income item of amount 5 over the summary
(10, 20, 30) yields the summary (15, 25, 30). -/
theorem c4_summary_after_create_witness :
    (summaryWrite { budget := 10, income := 20, expense := 30 } "income"
      5).budget = 15 ∧
    (summaryWrite { budget := 10, income := 20, expense := 30 } "income"
      5).income = 25 ∧
    (summaryWrite { budget := 10, income := 20, expense := 30 } "income"
      5).expense = 30 := by
  have h := c4_summary_after_create
    { amountNum := JsNum.fin 5, type := "income", description := "pay",
      dateStr := "2025-01-02" }
    { dateStr := "2025-01-02", amount := JsNum.fin 5, type := "income",
      description := "pay" }
    { budget := 10, income := 20, expense := 30 } 5 rfl rfl
  refine ⟨?_, ?_, ?_⟩
  · rw [h.1, if_pos rfl]; norm_num
  · rw [h.2.1, if_pos rfl]; norm_num
  · rw [h.2.2, if_neg (by decide)]

/-- C5: `handleForecast` leaves the forecast list exactly as it was and
signals failure whenever the response lacks the text payload or the text
does not parse as JSON, and replaces the list wholesale exactly on a parsed
response (`parse "" = none` records that the empty string is never valid
JSON). -/
theorem c5_forecast_parse_guard (α : Type) (parse : String → Option α)
    (resp : ForecastResponse) (prev : α) (hempty : parse "" = none) :
    (resp.text = none →
      handleForecast parse resp prev =
        { forecastItems := prev, succeeded := false, failed := true }) ∧
    (∀ t, resp.text = some t → parse t = none →
      handleForecast parse resp prev =
        { forecastItems := prev, succeeded := false, failed := true }) ∧
    (∀ t v, resp.text = some t → parse t = some v →
      handleForecast parse resp prev =
        { forecastItems := v, succeeded := true, failed := false }) := by
  refine ⟨?_, ?_, ?_⟩
  · intro h
    unfold handleForecast
    rw [h]
  · intro t ht hp
    unfold handleForecast
    rw [ht]
    by_cases he : (t == "") = true
    · simp [he]
    · simp [he, hp]
  · intro t v ht hp
    have he : (t == "") = false := by
      by_cases h : t = ""
      · rw [h, hempty] at hp
        exact absurd hp (by simp)
      · simpa using h
    unfold handleForecast
    rw [ht]
    simp [he, hp]

/-- Witness for C5: a response with no text payload leaves the previous
forecast list (here `0`) untouched and signals failure. -/
theorem c5_forecast_parse_guard_witness :
    handleForecast (fun _ : String => (none : Option Nat)) ⟨none⟩ 0 =
      { forecastItems := 0, succeeded := false, failed := true } :=
  (c5_forecast_parse_guard Nat (fun _ => none) ⟨none⟩ 0 rfl).1 rfl

lemma v1AttemptCount_flag_clear (es : List Bool) :
    v1AttemptCount false es = 0 := by
  induction es with
  | nil => rfl
  | cons e es ih => cases e <;> simp [v1AttemptCount, v1NullStep, ih]

/-- C6 counterexample: in variant 2 a stream that delivers a null identity
twice (e.g. again after a sign-out) triggers two automatic sign-in attempts,
so "at most once per process lifetime in both variants" is false. -/
theorem c6_variant2_retriggers :
    v2AttemptCount [false, false] = 2 ∧
    ¬ v2AttemptCount [false, false] ≤ 1 := by
  decide

/-- C6 amended: variant 1's automatic sign-in, guarded by the one-shot
`isInitialAuthAttempt` flag, fires at most once per process lifetime over
any stream of identity deliveries; variant 2 has no guard and attempts a
sign-in on every delivery of a null identity. -/
theorem c6_amended_auto_signin (events : List Bool) :
    v1AttemptCount true events ≤ 1 ∧
    v2AttemptCount events = (events.filter fun e => !e).length := by
  constructor
  · induction events with
    | nil => simp [v1AttemptCount]
    | cons e es ih =>
        cases e
        · simp [v1AttemptCount, v1NullStep, v1AttemptCount_flag_clear]
        · simpa [v1AttemptCount] using ih
  · induction events with
    | nil => rfl
    | cons e es ih =>
        cases e
        · simp [v2AttemptCount, List.filter_cons, ih]
          omega
        · simp [v2AttemptCount, List.filter_cons, ih]
